import Mathlib

/-!
Shallow embedding of the Offline Activity Sync Subsystem of the
carbon-footprint-tracker repository (syncService.ts, retryHelper.ts and the
retried write step of activityService.ts), together with proofs about the
spec's claims on it.

Modelling conventions:
* `AsyncStorage` is modelled by an explicit `Store` record holding the two
  JSON blobs (the pending queue under `@carbon_tracker:pending_activities`
  and the status under `@carbon_tracker:sync_status`); a key that is absent
  is `none`.
* A storage call that throws is modelled by an explicit fault flag passed to
  the function (`EnqueueFaults` / `DrainFaults`); a flag carrying a message
  models the thrown error's `.message`.  JSON.parse failures are folded into
  the corresponding read fault.
* `Date` values are epoch milliseconds (`Nat`); the drain's
  `new Date(pending.activity.date)` reconstruction is the identity here.
* The remote collaborator (`createActivity` / `updateActivity` of
  activityService.ts, each already wrapping its own retries) is a function
  `RemoteOp → Except String Unit`: per queued operation it either succeeds or
  throws an error with a message.  The list of `RemoteOp`s produced by a
  drain is the trace of remote attempts, in order.
* JavaScript truthiness of `pending.activityId` is preserved: the empty
  string is falsy, so an update entry with `activityId = some ""` takes the
  `throw new Error('Invalid operation or missing activity ID')` branch.
-/

namespace CarbonSync

/-- `export type SyncStatus = 'synced' | 'pending' | 'syncing' | 'error'`
(syncService.ts). -/
inductive SyncStatus where
  | synced
  | pending
  | syncing
  | error
deriving DecidableEq, Repr

/-- `operation: 'create' | 'update'` of a `PendingActivity`. -/
inductive OpKind where
  | create
  | update
deriving DecidableEq, Repr

/-- The activity fields stored in a queue entry:
`Omit<Activity, 'id' | 'createdAt' | 'updatedAt'>` (types.ts), with `Date`
as epoch milliseconds and `metadata` dropped (never inspected by the
subsystem). -/
structure ActivityPayload where
  userId : String
  activityType : String
  description : String
  emissionKg : Int
  date : Nat
deriving DecidableEq, Repr

/-- `interface PendingActivity` (syncService.ts lines 16-22). -/
structure PendingActivity where
  tempId : String
  activity : ActivityPayload
  timestamp : Nat
  operation : OpKind
  activityId : Option String
deriving DecidableEq, Repr

/-- The two AsyncStorage keys used by syncService.ts; `none` models an
absent key. -/
structure Store where
  pendingActivities : Option (List PendingActivity)
  syncStatus : Option SyncStatus
deriving DecidableEq, Repr

/-- The full `interface Activity` (types.ts), with `Date`s as epoch
milliseconds (`updatedAt.getTime()` is just `updatedAt` here). -/
structure Activity where
  id : String
  userId : String
  activityType : String
  description : String
  emissionKg : Int
  date : Nat
  synced : Bool
  createdAt : Nat
  updatedAt : Nat
deriving DecidableEq, Repr

/-- `handleSyncConflict` (syncService.ts lines 239-254): keep the record
with the strictly greater `updatedAt`; on a tie the `else` branch returns
the remote record. -/
def handleSyncConflict (localActivity remoteActivity : Activity) : Activity :=
  let localTime := localActivity.updatedAt
  let remoteTime := remoteActivity.updatedAt
  if localTime > remoteTime then
    localActivity
  else
    remoteActivity

/-- `getSyncStatus` (syncService.ts lines 179-187): returns the stored
status, defaulting to `'synced'` when the key is absent (`|| 'synced'`) and
also when the storage read throws (the catch branch returns `'synced'`).
`readFails = true` models the throwing read. -/
def getSyncStatus (st : Store) (readFails : Bool) : SyncStatus :=
  if readFails then
    SyncStatus.synced
  else
    match st.syncStatus with
    | some status => status
    | none => SyncStatus.synced

/-- `getPendingActivityCount` (syncService.ts lines 205-217): length of the
parsed queue, `0` when the key is absent, `0` when the read or the
JSON.parse throws (the catch branch returns `0`).  `readFails = true`
models the throwing read/parse. -/
def getPendingActivityCount (st : Store) (readFails : Bool) : Nat :=
  if readFails then
    0
  else
    match st.pendingActivities with
    | none => 0
    | some pendingActivities => pendingActivities.length

/-- `updateSyncStatus` (syncService.ts lines 193-199): writes the status
key; its own try/catch swallows a failing write (storage is then left
unchanged and no error escapes). -/
def updateSyncStatus (writeFails : Bool) (status : SyncStatus) (st : Store) : Store :=
  if writeFails then st else { st with syncStatus := some status }

/-- Fault flags for the three storage interactions of
`queueActivityForSync`: the queue read, the queue write, and the status
write done through `updateSyncStatus` (the last one is swallowed). -/
structure EnqueueFaults where
  getQueue : Bool
  setQueue : Bool
  setStatus : Bool
deriving DecidableEq, Repr

/-- All storage interactions of an enqueue succeed. -/
def noEnqueueFaults : EnqueueFaults :=
  { getQueue := false, setQueue := false, setStatus := false }

/-- `queueActivityForSync` (syncService.ts lines 31-66).  `tempId` and `now`
stand for the `Date.now()`/`Math.random()` generated identifier and
timestamp.  The caller's `operation` and `activityId` arguments are stored
unchanged — the source performs no validation relating them.  A throwing
queue read or queue write is caught by the outer catch and rethrown as
`Error('Failed to queue activity for offline sync')`; a throwing status
write is swallowed inside `updateSyncStatus`. -/
def queueActivityForSync (tempId : String) (now : Nat)
    (activity : ActivityPayload) (operation : OpKind) (activityId : Option String)
    (f : EnqueueFaults) (st : Store) : Except String (String × Store) :=
  if f.getQueue then
    Except.error "Failed to queue activity for offline sync"
  else
    let pendingActivity : PendingActivity :=
      { tempId := tempId, activity := activity, timestamp := now,
        operation := operation, activityId := activityId }
    let existing : List PendingActivity :=
      match st.pendingActivities with
      | some pendingActivities => pendingActivities
      | none => []
    let pendingActivities := existing ++ [pendingActivity]
    if f.setQueue then
      Except.error "Failed to queue activity for offline sync"
    else
      let st1 : Store := { st with pendingActivities := some pendingActivities }
      Except.ok (tempId, updateSyncStatus f.setStatus SyncStatus.pending st1)

/-- The fields of a NetInfo state inspected by `checkConnectivity`;
`none` models `null`/`undefined`. -/
structure NetInfoState where
  isConnected : Option Bool
  isInternetReachable : Option Bool
deriving DecidableEq, Repr

/-- `checkConnectivity` (syncService.ts lines 165-173):
`state.isConnected === true && state.isInternetReachable !== false`, and
`false` when `NetInfo.fetch()` throws (the catch branch). -/
def checkConnectivity (fetchResult : Except String NetInfoState) : Bool :=
  match fetchResult with
  | Except.error _ => false
  | Except.ok state =>
    (state.isConnected == some true) && !(state.isInternetReachable == some false)

/-- A remote write performed during a drain: `createActivity(activity)` or
`updateActivity(activityId, activity)` of activityService.ts. -/
inductive RemoteOp where
  | create (activity : ActivityPayload)
  | update (activityId : String) (activity : ActivityPayload)
deriving DecidableEq, Repr

/-- The attempt on one queue entry inside the drain loop (syncService.ts
lines 111-128): a `'create'` entry always calls `createActivity`; an
`'update'` entry calls `updateActivity` only when `pending.activityId` is
truthy (present and non-empty); otherwise the entry throws
`'Invalid operation or missing activity ID'` locally, without touching the
remote collaborator.  Returns the outcome together with the remote
attempts made (at most one). -/
def syncAttempt (remote : RemoteOp → Except String Unit) (pending : PendingActivity) :
    Except String Unit × List RemoteOp :=
  match pending.operation with
  | OpKind.create =>
    (remote (RemoteOp.create pending.activity), [RemoteOp.create pending.activity])
  | OpKind.update =>
    match pending.activityId with
    | some activityId =>
      if activityId = "" then
        (Except.error "Invalid operation or missing activity ID", [])
      else
        (remote (RemoteOp.update activityId pending.activity),
         [RemoteOp.update activityId pending.activity])
    | none => (Except.error "Invalid operation or missing activity ID", [])

/-- Accumulated outcome of the drain's `for (const pending of
pendingActivities)` loop (syncService.ts lines 104-137). -/
structure DrainPass where
  successCount : Nat
  errorCount : Nat
  errorMessages : List String
  remainingActivities : List PendingActivity
  attempted : List RemoteOp
deriving DecidableEq, Repr

/-- The drain loop itself: processes the snapshot front to back, counting
successes, and on failure recording `'Failed to sync activity: ' + message`
and keeping the entry in `remainingActivities` for retry.  `attempted`
collects the remote calls in the order they are made. -/
def drainLoop (remote : RemoteOp → Except String Unit) :
    List PendingActivity → DrainPass
  | [] =>
    { successCount := 0, errorCount := 0, errorMessages := [],
      remainingActivities := [], attempted := [] }
  | pending :: rest =>
    let first := syncAttempt remote pending
    let tail := drainLoop remote rest
    match first.1 with
    | Except.ok _ =>
      { successCount := tail.successCount + 1, errorCount := tail.errorCount,
        errorMessages := tail.errorMessages,
        remainingActivities := tail.remainingActivities,
        attempted := first.2 ++ tail.attempted }
    | Except.error msg =>
      { successCount := tail.successCount, errorCount := tail.errorCount + 1,
        errorMessages := ("Failed to sync activity: " ++ msg) :: tail.errorMessages,
        remainingActivities := pending :: tail.remainingActivities,
        attempted := first.2 ++ tail.attempted }

/-- The value returned by `syncPendingActivities`:
`{ success, errors, errorMessages }`. -/
structure SyncResult where
  success : Nat
  errors : Nat
  errorMessages : List String
deriving DecidableEq, Repr

/-- Fault flags for the storage interactions of `syncPendingActivities`:
the snapshot read (getItem + JSON.parse, `some msg` = throws with that
message), the final queue write (setItem/removeItem, likewise), and the
three status writes, each swallowed inside `updateSyncStatus`
(`setSyncing` for the initial `'syncing'` write, `setFinal` for the
`'synced'`/`'error'` write on the normal path, `setCatch` for the
`'error'` write in the outer catch). -/
structure DrainFaults where
  getQueue : Option String
  finalWrite : Option String
  setSyncing : Bool
  setFinal : Bool
  setCatch : Bool
deriving DecidableEq, Repr

/-- All storage interactions of a drain succeed. -/
def noDrainFaults : DrainFaults :=
  { getQueue := none, finalWrite := none,
    setSyncing := false, setFinal := false, setCatch := false }

/-- The part of `syncPendingActivities` that follows the snapshot read
(syncService.ts lines 102-158), split out at the `await` boundary: it
depends on the storage state only through the already-read `snapshot`, and
its final queue write (`setItem(..., remainingActivities)` when failures
remain, `removeItem` otherwise) is applied to whatever store `st` holds at
write time — it overwrites the queue key unconditionally.  A throwing
final write falls into the outer catch, which writes status `'error'` and
returns `{ success: 0, errors: 1, errorMessages: ['Sync failed: ' + msg] }`
instead of rethrowing. -/
def drainFinalize (remote : RemoteOp → Except String Unit) (f : DrainFaults)
    (snapshot : List PendingActivity) (st : Store) :
    SyncResult × Store × List RemoteOp :=
  let pass := drainLoop remote snapshot
  match f.finalWrite with
  | some msg =>
    (⟨0, 1, ["Sync failed: " ++ msg]⟩,
     updateSyncStatus f.setCatch SyncStatus.error st, pass.attempted)
  | none =>
    if pass.remainingActivities.length > 0 then
      let st1 : Store := { st with pendingActivities := some pass.remainingActivities }
      (⟨pass.successCount, pass.errorCount, pass.errorMessages⟩,
       updateSyncStatus f.setFinal SyncStatus.error st1, pass.attempted)
    else
      let st1 : Store := { st with pendingActivities := none }
      (⟨pass.successCount, pass.errorCount, pass.errorMessages⟩,
       updateSyncStatus f.setFinal SyncStatus.synced st1, pass.attempted)

/-- `syncPendingActivities` (syncService.ts lines 72-159).
`isConnected` is the result of `checkConnectivity()`.  The function never
reads the stored status: after the offline check it unconditionally writes
`'syncing'` and proceeds.  A throwing snapshot read falls into the outer
catch (status `'error'`, returned error result).  An absent or empty queue
returns early with status `'synced'`.  Otherwise the pass over the
snapshot runs and `drainFinalize` writes the outcome back.  The returned
triple is (result, final store, trace of remote attempts); the total
return type reflects that every storage failure is caught inside the
function and reported through the result, never thrown. -/
def syncPendingActivities (isConnected : Bool) (remote : RemoteOp → Except String Unit)
    (f : DrainFaults) (st : Store) : SyncResult × Store × List RemoteOp :=
  if !isConnected then
    (⟨0, 0, []⟩, st, [])
  else
    let st1 := updateSyncStatus f.setSyncing SyncStatus.syncing st
    match f.getQueue with
    | some msg =>
      (⟨0, 1, ["Sync failed: " ++ msg]⟩,
       updateSyncStatus f.setCatch SyncStatus.error st1, [])
    | none =>
      match st1.pendingActivities with
      | none => (⟨0, 0, []⟩, updateSyncStatus f.setFinal SyncStatus.synced st1, [])
      | some pendingActivities =>
        if pendingActivities.length = 0 then
          (⟨0, 0, []⟩, updateSyncStatus f.setFinal SyncStatus.synced st1, [])
        else
          drainFinalize remote f pendingActivities st1

/-- The shape of errors inspected by retryHelper.ts: an optional `code`
and an optional `message` (JS `error?.code` / `error?.message`, `none`
models `undefined`). -/
structure RetryErr where
  code : Option String
  message : Option String
deriving DecidableEq, Repr

/-- ASCII lower-casing of a character, as a Unicode code point —
`toLowerCase()` on the ASCII error messages involved here. -/
def lowerCode (c : Char) : Nat :=
  if 65 ≤ c.toNat ∧ c.toNat ≤ 90 then c.toNat + 32 else c.toNat

/-- Whether the first code-point list is a prefix of the second. -/
def prefixOfCodes : List Nat → List Nat → Bool
  | [], _ => true
  | _ :: _, [] => false
  | a :: as, b :: bs => (a == b) && prefixOfCodes as bs

/-- Whether the pattern occurs as a contiguous run of the list. -/
def containsCodes (pat : List Nat) : List Nat → Bool
  | [] => prefixOfCodes pat []
  | b :: bs => prefixOfCodes pat (b :: bs) || containsCodes pat bs

/-- `s.toLowerCase().includes(pat)` (the patterns used by the source are
already lowercase), computed on code points. -/
def containsLower (s pat : String) : Bool :=
  containsCodes (pat.toList.map Char.toNat) (s.toList.map lowerCode)

/-- `s.startsWith(pre)`, computed on code points. -/
def startsWithCodes (s pre : String) : Bool :=
  prefixOfCodes (pre.toList.map Char.toNat) (s.toList.map Char.toNat)

/-- `defaultShouldRetry` (retryHelper.ts lines 63-101), with the source's
check order preserved.  An absent `code`/`message` makes the corresponding
optional-chaining check falsy and falls through. -/
def defaultShouldRetry (e : RetryErr) : Bool :=
  if e.code = some "auth/network-request-failed" then true
  else if e.code = some "unavailable" then true
  else if containsLower (e.message.getD "") "timeout" then true
  else if containsLower (e.message.getD "") "connection" then true
  else if startsWithCodes (e.code.getD "") "auth/" then false
  else if e.code = some "permission-denied" then false
  else if e.code = some "not-found" then false
  else true

/-- `interface RetryOptions` (retryHelper.ts lines 6-11), with the
`shouldRetry` classification predicate. -/
structure RetryOptions where
  maxAttempts : Nat
  delayMs : Nat
  backoffMultiplier : Nat
  shouldRetry : RetryErr → Bool

/-- The destructuring defaults of `withRetry` (retryHelper.ts lines
24-29): 3 attempts, 1000 ms base delay, multiplier 2,
`defaultShouldRetry`. -/
def defaultRetryOptions : RetryOptions :=
  { maxAttempts := 3, delayMs := 1000, backoffMultiplier := 2,
    shouldRetry := defaultShouldRetry }

/-- Observable outcome of a `withRetry` call: the value returned or the
error finally thrown, how many times `fn` was invoked, and the backoff
delays awaited between invocations, in order. -/
structure RetryTrace (α : Type) where
  result : Except RetryErr α
  attemptsMade : Nat
  delays : List Nat

/-- The `for (let attempt = 1; attempt <= maxAttempts; attempt++)` loop of
`withRetry` (retryHelper.ts lines 34-53).  `fn n` is the outcome of the
n-th invocation of the wrapped thunk.  `fuel` counts the attempts still
allowed including the current one, so `fuel = 1` means
`attempt === maxAttempts`: on failure there, or on a non-retryable error,
the error is thrown; otherwise the loop waits `currentDelay`, multiplies
it by the backoff factor and retries.  The `fuel = 0` case is the
post-loop `throw lastError`, reachable only when `maxAttempts < 1`. -/
def withRetryGo {α : Type} (fn : Nat → Except RetryErr α) (shouldRetry : RetryErr → Bool)
    (backoffMultiplier : Nat) : Nat → Nat → Nat → RetryTrace α
  | _attempt, 0, _currentDelay =>
    { result := Except.error { code := none, message := none },
      attemptsMade := 0, delays := [] }
  | attempt, fuel + 1, currentDelay =>
    match fn attempt with
    | Except.ok v => { result := Except.ok v, attemptsMade := 1, delays := [] }
    | Except.error e =>
      if fuel = 0 ∨ shouldRetry e = false then
        { result := Except.error e, attemptsMade := 1, delays := [] }
      else
        let tail := withRetryGo fn shouldRetry backoffMultiplier (attempt + 1) fuel
          (currentDelay * backoffMultiplier)
        { result := tail.result, attemptsMade := tail.attemptsMade + 1,
          delays := currentDelay :: tail.delays }

/-- `withRetry` (retryHelper.ts lines 20-56). -/
def withRetry {α : Type} (fn : Nat → Except RetryErr α) (options : RetryOptions) :
    RetryTrace α :=
  withRetryGo fn options.shouldRetry options.backoffMultiplier 1
    options.maxAttempts options.delayMs

/-- The retried remote write step of `createActivity`
(activityService.ts lines 48-51):
`withRetry(() => addDoc(activitiesRef, activityToSave), { maxAttempts: 3 })`
— all other options take the retryHelper defaults.  `updateActivity`'s
`updateDoc` call (lines 161-164) uses the same options. -/
def createActivityWrite {α : Type} (addDoc : Nat → Except RetryErr α) : RetryTrace α :=
  withRetry addDoc
    { maxAttempts := 3, delayMs := 1000, backoffMultiplier := 2,
      shouldRetry := defaultShouldRetry }

/-- Boolean success test for an `Except` outcome. -/
def exceptOk {ε α : Type} : Except ε α → Bool
  | Except.ok _ => true
  | Except.error _ => false

/-- JS truthiness of `pending.activityId` combined with the operation kind:
the drain loop reaches a remote call exactly when the entry is a create, or
an update whose `activityId` is present and non-empty. -/
def validEntry (p : PendingActivity) : Bool :=
  match p.operation with
  | OpKind.create => true
  | OpKind.update =>
    match p.activityId with
    | some activityId => !(activityId == "")
    | none => false

/-- The remote write a queue entry gives rise to. -/
def toRemoteOp (p : PendingActivity) : RemoteOp :=
  match p.operation with
  | OpKind.create => RemoteOp.create p.activity
  | OpKind.update => RemoteOp.update (p.activityId.getD "") p.activity

/-- The data-model invariant of the spec: `targetRecordId` present iff the
operation kind is Update. -/
def entryWellFormed (p : PendingActivity) : Bool :=
  match p.operation, p.activityId with
  | OpKind.create, none => true
  | OpKind.update, some _ => true
  | _, _ => false

/-- The queue as a list: contents of the pending key, `[]` when absent. -/
def storeQueue (st : Store) : List PendingActivity :=
  match st.pendingActivities with
  | some pendingActivities => pendingActivities
  | none => []

/-- A concrete activity payload used in witnesses and counterexamples. -/
def samplePayload (description : String) : ActivityPayload :=
  { userId := "u1", activityType := "transportation", description := description,
    emissionKg := 5, date := 1700000000000 }

/-- A concrete queued create operation. -/
def pendingA : PendingActivity :=
  { tempId := "temp_a", activity := samplePayload "drive", timestamp := 1,
    operation := OpKind.create, activityId := none }

/-- A remote collaborator on which every write succeeds. -/
def remoteAlwaysOk : RemoteOp → Except String Unit := fun _ => Except.ok ()

/-- A remote collaborator that rejects writes whose description is
`"fail"`. -/
def remoteFailOnFail : RemoteOp → Except String Unit := fun op =>
  match op with
  | RemoteOp.create activity =>
    if activity.description = "fail" then Except.error "boom" else Except.ok ()
  | RemoteOp.update _ activity =>
    if activity.description = "fail" then Except.error "boom" else Except.ok ()

/-- A concrete activity record with the given `updatedAt` timestamp. -/
def activityAt (updatedAt : Nat) : Activity :=
  { id := "a1", userId := "u1", activityType := "transportation",
    description := "d", emissionKg := 1, date := 0, synced := true,
    createdAt := 0, updatedAt := updatedAt }

theorem updateSyncStatus_pendingActivities (writeFails : Bool) (status : SyncStatus)
    (st : Store) : (updateSyncStatus writeFails status st).pendingActivities =
      st.pendingActivities := by
  unfold updateSyncStatus
  split <;> rfl

theorem drainLoop_remaining_length (remote : RemoteOp → Except String Unit)
    (l : List PendingActivity) :
    (drainLoop remote l).remainingActivities.length = (drainLoop remote l).errorCount := by
  induction l with
  | nil => rfl
  | cons pending rest ih =>
    simp only [drainLoop]
    cases h : (syncAttempt remote pending).1 <;> simp [h, ih]

theorem drainLoop_counts (remote : RemoteOp → Except String Unit)
    (l : List PendingActivity) :
    (drainLoop remote l).successCount + (drainLoop remote l).errorCount = l.length := by
  induction l with
  | nil => rfl
  | cons pending rest ih =>
    simp only [drainLoop]
    cases h : (syncAttempt remote pending).1 <;> simp [h] <;> omega

theorem drainLoop_remaining_subset (remote : RemoteOp → Except String Unit)
    (l : List PendingActivity) (p : PendingActivity)
    (hp : p ∈ (drainLoop remote l).remainingActivities) : p ∈ l := by
  induction l with
  | nil => simp [drainLoop] at hp
  | cons pending rest ih =>
    simp only [drainLoop] at hp
    cases h : (syncAttempt remote pending).1 <;> simp [h] at hp
    · rcases hp with hp | hp
      · exact hp ▸ List.mem_cons_self _ _
      · exact List.mem_cons_of_mem _ (ih hp)
    · exact List.mem_cons_of_mem _ (ih hp)

theorem drainLoop_ok_or_remaining (remote : RemoteOp → Except String Unit)
    (l : List PendingActivity) (p : PendingActivity) (hp : p ∈ l) :
    exceptOk (syncAttempt remote p).1 = true ∨
      p ∈ (drainLoop remote l).remainingActivities := by
  induction l with
  | nil => simp at hp
  | cons pending rest ih =>
    rcases List.mem_cons.mp hp with hEq | hMem
    · subst hEq
      cases h : (syncAttempt remote p).1 with
      | ok v => exact Or.inl (by simp [exceptOk, h])
      | error msg =>
        refine Or.inr ?_
        simp [drainLoop, h]
    · rcases ih hMem with hOk | hRem
      · exact Or.inl hOk
      · refine Or.inr ?_
        simp only [drainLoop]
        cases h : (syncAttempt remote pending).1 <;> simp [h, hRem]

theorem drainLoop_success_filter (remote : RemoteOp → Except String Unit)
    (l : List PendingActivity) :
    (drainLoop remote l).successCount =
      (l.filter (fun p => exceptOk (syncAttempt remote p).1)).length := by
  induction l with
  | nil => rfl
  | cons pending rest ih =>
    simp only [drainLoop]
    cases h : (syncAttempt remote pending).1 <;>
      simp [List.filter, h, exceptOk, ih]

theorem drainLoop_error_filter (remote : RemoteOp → Except String Unit)
    (l : List PendingActivity) :
    (drainLoop remote l).errorCount =
      (l.filter (fun p => !exceptOk (syncAttempt remote p).1)).length := by
  induction l with
  | nil => rfl
  | cons pending rest ih =>
    simp only [drainLoop]
    cases h : (syncAttempt remote pending).1 <;>
      simp [List.filter, h, exceptOk, ih]

theorem syncAttempt_ops_of_valid (remote : RemoteOp → Except String Unit)
    (p : PendingActivity) (hv : validEntry p = true) :
    (syncAttempt remote p).2 = [toRemoteOp p] := by
  unfold validEntry at hv
  unfold syncAttempt toRemoteOp
  cases hop : p.operation with
  | create => rfl
  | update =>
    rw [hop] at hv
    cases hid : p.activityId with
    | none => rw [hid] at hv; simp at hv
    | some activityId =>
      rw [hid] at hv
      simp only [bne_iff_ne, Bool.not_eq_true'] at hv
      have : ¬ activityId = "" := by
        intro hEq
        rw [hEq] at hv
        simp at hv
      simp [this]

theorem drainLoop_attempted_of_valid (remote : RemoteOp → Except String Unit)
    (l : List PendingActivity) (hv : ∀ p ∈ l, validEntry p = true) :
    (drainLoop remote l).attempted = l.map toRemoteOp := by
  induction l with
  | nil => rfl
  | cons pending rest ih =>
    have hHead := syncAttempt_ops_of_valid remote pending (hv pending (List.mem_cons_self _ _))
    have hTail := ih (fun p hp => hv p (List.mem_cons_of_mem _ hp))
    simp only [drainLoop]
    cases h : (syncAttempt remote pending).1 <;> simp [h, hHead, hTail]

/-- C3 (offline skip): for every queue and status state, calling the drain
while `checkConnectivity` reports offline returns
`{ success: 0, errors: 0, errorMessages: [] }` and leaves the store — both
the persisted queue and the stored status — unchanged, performing no remote
attempt; in particular no transition to `Syncing` occurs. -/
theorem drain_offline_skip (fetchResult : Except String NetInfoState)
    (remote : RemoteOp → Except String Unit) (f : DrainFaults) (st : Store)
    (h : checkConnectivity fetchResult = false) :
    syncPendingActivities (checkConnectivity fetchResult) remote f st =
      (⟨0, 0, []⟩, st, []) := by
  rw [h]
  rfl

/-- Witness for C3: a concrete offline state (NetInfo reports no
connection) with a non-empty queue and `pending` status: the drain returns
all-zero counts and the store is untouched. -/
theorem drain_offline_skip_witness :
    checkConnectivity (Except.ok { isConnected := some false, isInternetReachable := some false }) = false ∧
    syncPendingActivities
        (checkConnectivity (Except.ok { isConnected := some false, isInternetReachable := some false }))
        remoteAlwaysOk noDrainFaults
        { pendingActivities := some [pendingA], syncStatus := some SyncStatus.pending } =
      (⟨0, 0, []⟩,
       { pendingActivities := some [pendingA], syncStatus := some SyncStatus.pending }, []) :=
  ⟨rfl,
   drain_offline_skip
     (Except.ok { isConnected := some false, isInternetReachable := some false })
     remoteAlwaysOk noDrainFaults
     { pendingActivities := some [pendingA], syncStatus := some SyncStatus.pending } rfl⟩

/-- C5 (conflict resolution): `handleSyncConflict` returns the record with
the strictly greater `updatedAt` timestamp, and returns the remote record
when the two timestamps are equal (ties favor the remote copy, via the
`else` branch). -/
theorem handleSyncConflict_lastWriteWins (localActivity remoteActivity : Activity) :
    (remoteActivity.updatedAt < localActivity.updatedAt →
       handleSyncConflict localActivity remoteActivity = localActivity) ∧
    (localActivity.updatedAt ≤ remoteActivity.updatedAt →
       handleSyncConflict localActivity remoteActivity = remoteActivity) := by
  constructor
  · intro h
    unfold handleSyncConflict
    simp only [gt_iff_lt]
    rw [if_pos h]
  · intro h
    unfold handleSyncConflict
    simp only [gt_iff_lt]
    rw [if_neg (by omega)]

/-- Witness for C5, the spec's Scenario C: local `updatedAt = 100` against
remote `updatedAt = 200` yields the remote record; local `300` against
remote `200` yields the local record. -/
theorem handleSyncConflict_lastWriteWins_witness :
    handleSyncConflict (activityAt 100) (activityAt 200) = activityAt 200 ∧
    handleSyncConflict (activityAt 300) (activityAt 200) = activityAt 300 :=
  ⟨(handleSyncConflict_lastWriteWins (activityAt 100) (activityAt 200)).2 (by decide),
   (handleSyncConflict_lastWriteWins (activityAt 300) (activityAt 200)).1 (by decide)⟩

/-- C10 (implicit fail-open status reads): `getSyncStatus` returns
`synced` both when no status value is stored and when the storage read
throws, and `getPendingActivityCount` returns `0` both when no queue is
stored and when the read/parse throws — in particular, on a throwing read
the readers report `synced` with zero pending for an arbitrary store,
including one whose persisted queue is non-empty.  The readers' total
return types (`SyncStatus`, `Nat`) reflect that they never propagate an
exception: every failure is absorbed by their catch branches. -/
theorem statusReaders_failOpen (st : Store) :
    getSyncStatus st true = SyncStatus.synced ∧
    getSyncStatus { pendingActivities := st.pendingActivities, syncStatus := none } false =
      SyncStatus.synced ∧
    getPendingActivityCount st true = 0 ∧
    getPendingActivityCount { pendingActivities := none, syncStatus := st.syncStatus } false = 0 :=
  ⟨rfl, rfl, rfl, rfl⟩

theorem syncPendingActivities_noFaults (remote : RemoteOp → Except String Unit)
    (st : Store) :
    syncPendingActivities true remote noDrainFaults st =
      match st.pendingActivities with
      | none => (⟨0, 0, []⟩, { st with syncStatus := some SyncStatus.synced }, [])
      | some l =>
        if l.length = 0 then
          (⟨0, 0, []⟩, { st with syncStatus := some SyncStatus.synced }, [])
        else if (drainLoop remote l).remainingActivities.length > 0 then
          (⟨(drainLoop remote l).successCount, (drainLoop remote l).errorCount,
              (drainLoop remote l).errorMessages⟩,
           { pendingActivities := some (drainLoop remote l).remainingActivities,
             syncStatus := some SyncStatus.error },
           (drainLoop remote l).attempted)
        else
          (⟨(drainLoop remote l).successCount, (drainLoop remote l).errorCount,
              (drainLoop remote l).errorMessages⟩,
           { pendingActivities := none, syncStatus := some SyncStatus.synced },
           (drainLoop remote l).attempted) := by
  cases hq : st.pendingActivities with
  | none => simp [syncPendingActivities, noDrainFaults, updateSyncStatus, hq]
  | some l =>
    by_cases hl : l.length = 0
    · simp [syncPendingActivities, noDrainFaults, updateSyncStatus, hq, hl]
    · by_cases hrem : (drainLoop remote l).remainingActivities.length > 0 <;>
        simp [syncPendingActivities, drainFinalize, noDrainFaults, updateSyncStatus,
          hq, hl, hrem]

theorem syncPendingActivities_noFaults_none (remote : RemoteOp → Except String Unit)
    (st : Store) (hq : st.pendingActivities = none) :
    syncPendingActivities true remote noDrainFaults st =
      (⟨0, 0, []⟩, { st with syncStatus := some SyncStatus.synced }, []) := by
  rw [syncPendingActivities_noFaults, hq]

theorem syncPendingActivities_noFaults_some (remote : RemoteOp → Except String Unit)
    (st : Store) (l : List PendingActivity) (hq : st.pendingActivities = some l) :
    syncPendingActivities true remote noDrainFaults st =
      (if l.length = 0 then
        (⟨0, 0, []⟩, { st with syncStatus := some SyncStatus.synced }, [])
      else if (drainLoop remote l).remainingActivities.length > 0 then
        (⟨(drainLoop remote l).successCount, (drainLoop remote l).errorCount,
            (drainLoop remote l).errorMessages⟩,
         { pendingActivities := some (drainLoop remote l).remainingActivities,
           syncStatus := some SyncStatus.error },
         (drainLoop remote l).attempted)
      else
        (⟨(drainLoop remote l).successCount, (drainLoop remote l).errorCount,
            (drainLoop remote l).errorMessages⟩,
         { pendingActivities := none, syncStatus := some SyncStatus.synced },
         (drainLoop remote l).attempted)) := by
  rw [syncPendingActivities_noFaults, hq]

/-- C4 (status correctness): after any successful enqueue (fault-free
storage) the stored status is `pending` — never `synced`; after a
fault-free online drain completing with zero `errors` the status is
`synced` and the pending count reads `0`; after one completing with
positive `errors` the status is `error` and the pending count equals
`errors` — exactly the failed operations remain queued. -/
theorem drain_enqueue_statusCorrectness
    (tempId : String) (now : Nat) (activity : ActivityPayload) (operation : OpKind)
    (activityId : Option String) (st st' : Store) (tid : String)
    (remote : RemoteOp → Except String Unit) :
    (queueActivityForSync tempId now activity operation activityId noEnqueueFaults st =
        Except.ok (tid, st') → st'.syncStatus = some SyncStatus.pending) ∧
    ((syncPendingActivities true remote noDrainFaults st).1.errors = 0 →
       (syncPendingActivities true remote noDrainFaults st).2.1.syncStatus =
           some SyncStatus.synced ∧
       getPendingActivityCount (syncPendingActivities true remote noDrainFaults st).2.1
           false = 0) ∧
    (0 < (syncPendingActivities true remote noDrainFaults st).1.errors →
       (syncPendingActivities true remote noDrainFaults st).2.1.syncStatus =
           some SyncStatus.error ∧
       getPendingActivityCount (syncPendingActivities true remote noDrainFaults st).2.1
           false = (syncPendingActivities true remote noDrainFaults st).1.errors) := by
  refine ⟨?_, ?_⟩
  · intro h
    simp [queueActivityForSync, noEnqueueFaults, updateSyncStatus] at h
    rw [← h.2]
  · cases hq : st.pendingActivities with
    | none =>
      rw [syncPendingActivities_noFaults_none remote st hq]
      exact ⟨fun _ => ⟨rfl, by simp [getPendingActivityCount, hq]⟩,
             fun h => absurd (show (0:Nat) < 0 from h) (by decide)⟩
    | some l =>
      rw [syncPendingActivities_noFaults_some remote st l hq]
      by_cases hl : l.length = 0
      · rw [if_pos hl]
        exact ⟨fun _ => ⟨rfl, by
                simp [getPendingActivityCount, hq]
                exact List.length_eq_zero.mp hl⟩,
               fun h => absurd (show (0:Nat) < 0 from h) (by decide)⟩
      · have hcount := drainLoop_remaining_length remote l
        rw [if_neg hl]
        by_cases hrem : (drainLoop remote l).remainingActivities.length > 0
        · rw [if_pos hrem]
          constructor
          · intro hzero
            have hz : (drainLoop remote l).errorCount = 0 := hzero
            omega
          · intro _
            exact ⟨rfl, hcount⟩
        · rw [if_neg hrem]
          constructor
          · intro _
            exact ⟨rfl, rfl⟩
          · intro hpos
            have hp : 0 < (drainLoop remote l).errorCount := hpos
            omega

/-- Witness for C4: a concrete enqueue into an empty store yields status
`pending`; a drain over a two-entry queue where the first write fails and
the second succeeds ends with status `error` and exactly one entry
pending; a drain over an all-succeeding queue ends `synced` with zero
pending. -/
theorem drain_enqueue_statusCorrectness_witness :
    ({ pendingActivities := some [pendingA], syncStatus := some SyncStatus.pending } :
        Store).syncStatus = some SyncStatus.pending ∧
    (syncPendingActivities true remoteFailOnFail noDrainFaults
        { pendingActivities := some
            [{ pendingA with activity := samplePayload "fail", tempId := "temp_f" },
             pendingA],
          syncStatus := some SyncStatus.pending }).2.1.syncStatus =
      some SyncStatus.error ∧
    (syncPendingActivities true remoteAlwaysOk noDrainFaults
        { pendingActivities := some [pendingA],
          syncStatus := some SyncStatus.pending }).2.1.syncStatus =
      some SyncStatus.synced := by
  refine ⟨?_, ?_, ?_⟩
  · exact (drain_enqueue_statusCorrectness "temp_a" 1 (samplePayload "drive")
      OpKind.create none { pendingActivities := none, syncStatus := none }
      { pendingActivities := some [pendingA], syncStatus := some SyncStatus.pending }
      "temp_a" remoteAlwaysOk).1 rfl
  · exact ((drain_enqueue_statusCorrectness "temp_a" 1 (samplePayload "drive")
      OpKind.create none
      { pendingActivities := some
          [{ pendingA with activity := samplePayload "fail", tempId := "temp_f" },
           pendingA],
        syncStatus := some SyncStatus.pending }
      { pendingActivities := none, syncStatus := none } "temp_a"
      remoteFailOnFail).2.2 (by decide)).1
  · exact ((drain_enqueue_statusCorrectness "temp_a" 1 (samplePayload "drive")
      OpKind.create none
      { pendingActivities := some [pendingA], syncStatus := some SyncStatus.pending }
      { pendingActivities := none, syncStatus := none } "temp_a"
      remoteAlwaysOk).2.1 (by decide)).1

theorem syncPendingActivities_online_getQFault (remote : RemoteOp → Except String Unit)
    (f : DrainFaults) (st : Store) (msg : String) (hg : f.getQueue = some msg) :
    syncPendingActivities true remote f st =
      (⟨0, 1, ["Sync failed: " ++ msg]⟩,
       updateSyncStatus f.setCatch SyncStatus.error
         (updateSyncStatus f.setSyncing SyncStatus.syncing st), []) := by
  simp [syncPendingActivities, hg]

theorem syncPendingActivities_online_qNone (remote : RemoteOp → Except String Unit)
    (f : DrainFaults) (st : Store) (hg : f.getQueue = none)
    (hq : st.pendingActivities = none) :
    syncPendingActivities true remote f st =
      (⟨0, 0, []⟩,
       updateSyncStatus f.setFinal SyncStatus.synced
         (updateSyncStatus f.setSyncing SyncStatus.syncing st), []) := by
  have h1 : (updateSyncStatus f.setSyncing SyncStatus.syncing st).pendingActivities = none := by
    rw [updateSyncStatus_pendingActivities, hq]
  simp [syncPendingActivities, hg, h1]

theorem syncPendingActivities_online_qEmpty (remote : RemoteOp → Except String Unit)
    (f : DrainFaults) (st : Store) (l : List PendingActivity) (hg : f.getQueue = none)
    (hq : st.pendingActivities = some l) (hl : l.length = 0) :
    syncPendingActivities true remote f st =
      (⟨0, 0, []⟩,
       updateSyncStatus f.setFinal SyncStatus.synced
         (updateSyncStatus f.setSyncing SyncStatus.syncing st), []) := by
  have h1 : (updateSyncStatus f.setSyncing SyncStatus.syncing st).pendingActivities = some l := by
    rw [updateSyncStatus_pendingActivities, hq]
  simp [syncPendingActivities, hg, h1, hl]

theorem syncPendingActivities_online_run (remote : RemoteOp → Except String Unit)
    (f : DrainFaults) (st : Store) (l : List PendingActivity) (hg : f.getQueue = none)
    (hq : st.pendingActivities = some l) (hl : ¬ l.length = 0) :
    syncPendingActivities true remote f st =
      drainFinalize remote f l (updateSyncStatus f.setSyncing SyncStatus.syncing st) := by
  have h1 : (updateSyncStatus f.setSyncing SyncStatus.syncing st).pendingActivities = some l := by
    rw [updateSyncStatus_pendingActivities, hq]
  simp [syncPendingActivities, hg, h1, hl]

theorem drainFinalize_store_indep (remote : RemoteOp → Except String Unit)
    (f : DrainFaults) (snapshot : List PendingActivity) (stA stB : Store)
    (h : stA.pendingActivities = stB.pendingActivities) :
    (drainFinalize remote f snapshot stA).1 = (drainFinalize remote f snapshot stB).1 ∧
    (drainFinalize remote f snapshot stA).2.1.pendingActivities =
      (drainFinalize remote f snapshot stB).2.1.pendingActivities ∧
    (drainFinalize remote f snapshot stA).2.2 = (drainFinalize remote f snapshot stB).2.2 := by
  unfold drainFinalize
  cases hf : f.finalWrite with
  | some msg => simp [updateSyncStatus_pendingActivities, h]
  | none =>
    by_cases hrem : (drainLoop remote snapshot).remainingActivities.length > 0 <;>
      simp [hrem, updateSyncStatus_pendingActivities, h]

/-- Counterexample for C2 (single-flight drain): the source has no
reentrancy guard.  With the stored status already `'syncing'` (a drain in
flight), a second online invocation of `syncPendingActivities` performs a
full pass anyway: it drains the one-entry queue, calls the remote
collaborator, empties the queue, writes status `'synced'`, and returns
`{ success: 1, errors: 0 }` — not the claimed no-op with zero counts and
no mutation. -/
theorem drain_reentered_performs_full_pass :
    syncPendingActivities true remoteAlwaysOk noDrainFaults
        { pendingActivities := some [pendingA], syncStatus := some SyncStatus.syncing } =
      (⟨1, 0, []⟩,
       { pendingActivities := none, syncStatus := some SyncStatus.synced },
       [RemoteOp.create (samplePayload "drive")]) ∧
    (⟨1, 0, []⟩ : SyncResult) ≠ (⟨0, 0, []⟩ : SyncResult) ∧
    ({ pendingActivities := none, syncStatus := some SyncStatus.synced } : Store) ≠
      { pendingActivities := some [pendingA], syncStatus := some SyncStatus.syncing } :=
  ⟨rfl, by decide, by decide⟩

/-- C2 as amended: `syncPendingActivities` never reads the stored sync
status, so invoking it while the status is `'syncing'` behaves exactly as
with any other stored status — the returned counts, the resulting queue
contents and the trace of remote attempts are all independent of the
stored status.  The only guard that short-circuits a drain is the offline
check; there is no single-flight protection. -/
theorem drain_ignores_storedStatus (isConnected : Bool)
    (remote : RemoteOp → Except String Unit) (f : DrainFaults)
    (q : Option (List PendingActivity)) (s1 s2 : Option SyncStatus) :
    (syncPendingActivities isConnected remote f ⟨q, s1⟩).1 =
      (syncPendingActivities isConnected remote f ⟨q, s2⟩).1 ∧
    (syncPendingActivities isConnected remote f ⟨q, s1⟩).2.1.pendingActivities =
      (syncPendingActivities isConnected remote f ⟨q, s2⟩).2.1.pendingActivities ∧
    (syncPendingActivities isConnected remote f ⟨q, s1⟩).2.2 =
      (syncPendingActivities isConnected remote f ⟨q, s2⟩).2.2 := by
  cases isConnected with
  | false => exact ⟨rfl, rfl, rfl⟩
  | true =>
    cases hg : f.getQueue with
    | some msg =>
      rw [syncPendingActivities_online_getQFault remote f ⟨q, s1⟩ msg hg,
        syncPendingActivities_online_getQFault remote f ⟨q, s2⟩ msg hg]
      exact ⟨rfl, by rw [updateSyncStatus_pendingActivities, updateSyncStatus_pendingActivities,
        updateSyncStatus_pendingActivities, updateSyncStatus_pendingActivities], rfl⟩
    | none =>
      cases hq : q with
      | none =>
        rw [syncPendingActivities_online_qNone remote f ⟨none, s1⟩ hg rfl,
          syncPendingActivities_online_qNone remote f ⟨none, s2⟩ hg rfl]
        exact ⟨rfl, by rw [updateSyncStatus_pendingActivities, updateSyncStatus_pendingActivities,
          updateSyncStatus_pendingActivities, updateSyncStatus_pendingActivities], rfl⟩
      | some l =>
        by_cases hl : l.length = 0
        · rw [syncPendingActivities_online_qEmpty remote f ⟨some l, s1⟩ l hg rfl hl,
            syncPendingActivities_online_qEmpty remote f ⟨some l, s2⟩ l hg rfl hl]
          exact ⟨rfl, by rw [updateSyncStatus_pendingActivities, updateSyncStatus_pendingActivities,
            updateSyncStatus_pendingActivities, updateSyncStatus_pendingActivities], rfl⟩
        · rw [syncPendingActivities_online_run remote f ⟨some l, s1⟩ l hg rfl hl,
            syncPendingActivities_online_run remote f ⟨some l, s2⟩ l hg rfl hl]
          exact drainFinalize_store_indep remote f l _ _
            (by rw [updateSyncStatus_pendingActivities, updateSyncStatus_pendingActivities])

/-- A concrete create operation enqueued while a drain is in flight. -/
def pendingB : PendingActivity :=
  { tempId := "temp_b", activity := samplePayload "bike", timestamp := 5,
    operation := OpKind.create, activityId := none }

/-- A concrete queued create operation whose remote write
`remoteFailOnFail` rejects. -/
def pendingF : PendingActivity :=
  { tempId := "temp_f", activity := samplePayload "fail", timestamp := 0,
    operation := OpKind.create, activityId := none }

theorem drainFinalize_noFaults (remote : RemoteOp → Except String Unit)
    (snapshot : List PendingActivity) (st : Store) :
    drainFinalize remote noDrainFaults snapshot st =
      if (drainLoop remote snapshot).remainingActivities.length > 0 then
        (⟨(drainLoop remote snapshot).successCount, (drainLoop remote snapshot).errorCount,
            (drainLoop remote snapshot).errorMessages⟩,
         { pendingActivities := some (drainLoop remote snapshot).remainingActivities,
           syncStatus := some SyncStatus.error },
         (drainLoop remote snapshot).attempted)
      else
        (⟨(drainLoop remote snapshot).successCount, (drainLoop remote snapshot).errorCount,
            (drainLoop remote snapshot).errorMessages⟩,
         { pendingActivities := none, syncStatus := some SyncStatus.synced },
         (drainLoop remote snapshot).attempted) := by
  by_cases hrem : (drainLoop remote snapshot).remainingActivities.length > 0 <;>
    simp [drainFinalize, noDrainFaults, updateSyncStatus, hrem]

/-- Counterexample for C1 (no loss): an operation enqueued after the
drain's snapshot is read is NOT still in the queue when the drain's final
queue write completes — it is lost.  The schedule, realizable on the JS
event loop while the drain awaits its remote writes: (1) a drain starts on
the store holding queue `[pendingA]`: it writes status `'syncing'` and
reads the snapshot `[pendingA]`; (2) `queueActivityForSync` runs to
completion, appending `pendingB`, so storage now holds
`[pendingA, pendingB]`; (3) the drain finalizes: `pendingA` succeeds
remotely, `remainingActivities` is empty, so the drain executes
`AsyncStorage.removeItem(PENDING_ACTIVITIES_KEY)` — deleting `pendingB`
with it — and writes status `'synced'`.  `pendingB` is then neither in the
persisted queue nor ever attempted against the remote store. -/
theorem drain_interleaved_enqueue_lost :
    (updateSyncStatus noDrainFaults.setSyncing SyncStatus.syncing
        { pendingActivities := some [pendingA], syncStatus := some SyncStatus.pending }) =
      { pendingActivities := some [pendingA], syncStatus := some SyncStatus.syncing } ∧
    queueActivityForSync "temp_b" 5 (samplePayload "bike") OpKind.create none
        noEnqueueFaults
        { pendingActivities := some [pendingA], syncStatus := some SyncStatus.syncing } =
      Except.ok ("temp_b",
        { pendingActivities := some [pendingA, pendingB],
          syncStatus := some SyncStatus.pending }) ∧
    drainFinalize remoteAlwaysOk noDrainFaults [pendingA]
        { pendingActivities := some [pendingA, pendingB],
          syncStatus := some SyncStatus.pending } =
      (⟨1, 0, []⟩,
       { pendingActivities := none, syncStatus := some SyncStatus.synced },
       [RemoteOp.create (samplePayload "drive")]) ∧
    pendingB ∉ storeQueue
        { pendingActivities := none, syncStatus := some SyncStatus.synced } ∧
    RemoteOp.create (samplePayload "bike") ∉ [RemoteOp.create (samplePayload "drive")] :=
  ⟨rfl, rfl, rfl, by decide, by decide⟩

/-- C1 as amended: no-loss holds exactly for the operations present in the
drain's snapshot — each is either attempted-and-confirmed by the remote
collaborator or still present in the queue written back by the drain.  The
queue the drain's final write leaves behind contains only snapshot
entries, whatever the storage held at write time, so an operation enqueued
after the snapshot was read is absent from it (lost), not deferred to the
next drain. -/
theorem drain_snapshot_noLoss (remote : RemoteOp → Except String Unit)
    (snapshot : List PendingActivity) (st : Store) (p : PendingActivity) :
    (p ∈ snapshot →
       exceptOk (syncAttempt remote p).1 = true ∨
         p ∈ storeQueue (drainFinalize remote noDrainFaults snapshot st).2.1) ∧
    (p ∈ storeQueue (drainFinalize remote noDrainFaults snapshot st).2.1 →
       p ∈ snapshot) := by
  have hfin := drainFinalize_noFaults remote snapshot st
  by_cases hrem : (drainLoop remote snapshot).remainingActivities.length > 0
  · rw [hfin, if_pos hrem]
    constructor
    · intro hp
      rcases drainLoop_ok_or_remaining remote snapshot p hp with h | h
      · exact Or.inl h
      · exact Or.inr (by simpa [storeQueue] using h)
    · intro hp
      exact drainLoop_remaining_subset remote snapshot p
        (by simpa [storeQueue] using hp)
  · rw [hfin, if_neg hrem]
    constructor
    · intro hp
      rcases drainLoop_ok_or_remaining remote snapshot p hp with h | h
      · exact Or.inl h
      · exfalso
        have hlen : (drainLoop remote snapshot).remainingActivities.length = 0 := by omega
        rw [List.length_eq_zero] at hlen
        rw [hlen] at h
        simp at h
    · intro hp
      simp [storeQueue] at hp

/-- Witness for the amended C1: for the snapshot `[pendingF, pendingA]`
against a remote that rejects `pendingF`, the snapshot entry `pendingF` is
either remotely confirmed or still queued after the drain's final write
(here: still queued). -/
theorem drain_snapshot_noLoss_witness :
    pendingF ∈ ([pendingF, pendingA] : List PendingActivity) ∧
    (exceptOk (syncAttempt remoteFailOnFail pendingF).1 = true ∨
       pendingF ∈ storeQueue
         (drainFinalize remoteFailOnFail noDrainFaults [pendingF, pendingA]
           { pendingActivities := some [pendingF, pendingA],
             syncStatus := some SyncStatus.pending }).2.1) :=
  ⟨by decide,
   (drain_snapshot_noLoss remoteFailOnFail [pendingF, pendingA]
     { pendingActivities := some [pendingF, pendingA],
       syncStatus := some SyncStatus.pending } pendingF).1 (by decide)⟩

/-- C6 (FIFO without fail-fast): during a single fault-free online drain
over a snapshot of well-formed entries (the data model's domain: create
entries, and update entries with a usable target id), the remote
collaborator is called once per snapshot entry, in exactly the snapshot's
insertion order (`snapshot.map toRemoteOp`); every entry is attempted
regardless of earlier failures, and the returned counts aggregate all
successes and all failures of the pass. -/
theorem drain_fifo_all_attempted (remote : RemoteOp → Except String Unit)
    (st : Store) (snapshot : List PendingActivity)
    (hq : st.pendingActivities = some snapshot) (hne : ¬ snapshot.length = 0)
    (hv : ∀ p ∈ snapshot, validEntry p = true) :
    (syncPendingActivities true remote noDrainFaults st).2.2 =
      snapshot.map toRemoteOp ∧
    (syncPendingActivities true remote noDrainFaults st).1.success +
        (syncPendingActivities true remote noDrainFaults st).1.errors =
      snapshot.length ∧
    (syncPendingActivities true remote noDrainFaults st).1.success =
      (snapshot.filter (fun p => exceptOk (syncAttempt remote p).1)).length ∧
    (syncPendingActivities true remote noDrainFaults st).1.errors =
      (snapshot.filter (fun p => !exceptOk (syncAttempt remote p).1)).length := by
  rw [syncPendingActivities_online_run remote noDrainFaults st snapshot rfl hq hne,
    drainFinalize_noFaults]
  by_cases hrem : (drainLoop remote snapshot).remainingActivities.length > 0
  · rw [if_pos hrem]
    exact ⟨drainLoop_attempted_of_valid remote snapshot hv,
      drainLoop_counts remote snapshot,
      drainLoop_success_filter remote snapshot,
      drainLoop_error_filter remote snapshot⟩
  · rw [if_neg hrem]
    exact ⟨drainLoop_attempted_of_valid remote snapshot hv,
      drainLoop_counts remote snapshot,
      drainLoop_success_filter remote snapshot,
      drainLoop_error_filter remote snapshot⟩

/-- Witness for C6: a two-entry snapshot where the first remote write
fails and the second succeeds — both entries are attempted, in insertion
order, and the counts aggregate one success and one failure. -/
theorem drain_fifo_all_attempted_witness :
    (syncPendingActivities true remoteFailOnFail noDrainFaults
        { pendingActivities := some [pendingF, pendingA],
          syncStatus := some SyncStatus.pending }).2.2 =
      ([pendingF, pendingA] : List PendingActivity).map toRemoteOp ∧
    (syncPendingActivities true remoteFailOnFail noDrainFaults
        { pendingActivities := some [pendingF, pendingA],
          syncStatus := some SyncStatus.pending }).1.success +
        (syncPendingActivities true remoteFailOnFail noDrainFaults
          { pendingActivities := some [pendingF, pendingA],
            syncStatus := some SyncStatus.pending }).1.errors =
      ([pendingF, pendingA] : List PendingActivity).length ∧
    (syncPendingActivities true remoteFailOnFail noDrainFaults
        { pendingActivities := some [pendingF, pendingA],
          syncStatus := some SyncStatus.pending }).1.success =
      (([pendingF, pendingA] : List PendingActivity).filter
        (fun p => exceptOk (syncAttempt remoteFailOnFail p).1)).length ∧
    (syncPendingActivities true remoteFailOnFail noDrainFaults
        { pendingActivities := some [pendingF, pendingA],
          syncStatus := some SyncStatus.pending }).1.errors =
      (([pendingF, pendingA] : List PendingActivity).filter
        (fun p => !exceptOk (syncAttempt remoteFailOnFail p).1)).length :=
  drain_fifo_all_attempted remoteFailOnFail
    { pendingActivities := some [pendingF, pendingA],
      syncStatus := some SyncStatus.pending }
    [pendingF, pendingA] rfl (by decide) (by decide)

theorem storeQueue_update (writeFails : Bool) (status : SyncStatus) (st : Store) :
    storeQueue (updateSyncStatus writeFails status st) = storeQueue st := by
  unfold storeQueue
  rw [updateSyncStatus_pendingActivities]

theorem drainFinalize_queue_sub (remote : RemoteOp → Except String Unit)
    (g : DrainFaults) (snapshot : List PendingActivity) (stA : Store)
    (p : PendingActivity)
    (hp : p ∈ storeQueue (drainFinalize remote g snapshot stA).2.1) :
    p ∈ snapshot ∨ p ∈ storeQueue stA := by
  unfold drainFinalize at hp
  cases hf : g.finalWrite with
  | some msg =>
    simp only [hf] at hp
    rw [storeQueue_update] at hp
    exact Or.inr hp
  | none =>
    simp only [hf] at hp
    by_cases hrem : (drainLoop remote snapshot).remainingActivities.length > 0
    · rw [if_pos hrem, storeQueue_update] at hp
      exact Or.inl (drainLoop_remaining_subset remote snapshot p hp)
    · rw [if_neg hrem, storeQueue_update] at hp
      simp [storeQueue] at hp

theorem syncPendingActivities_queue_subset (isConnected : Bool)
    (remote : RemoteOp → Except String Unit) (g : DrainFaults) (st : Store)
    (p : PendingActivity)
    (hp : p ∈ storeQueue (syncPendingActivities isConnected remote g st).2.1) :
    p ∈ storeQueue st := by
  cases isConnected with
  | false => exact hp
  | true =>
    cases hg : g.getQueue with
    | some msg =>
      rw [syncPendingActivities_online_getQFault remote g st msg hg,
        storeQueue_update, storeQueue_update] at hp
      exact hp
    | none =>
      cases hq : st.pendingActivities with
      | none =>
        rw [syncPendingActivities_online_qNone remote g st hg hq,
          storeQueue_update, storeQueue_update] at hp
        exact hp
      | some l =>
        by_cases hl : l.length = 0
        · rw [syncPendingActivities_online_qEmpty remote g st l hg hq hl,
            storeQueue_update, storeQueue_update] at hp
          exact hp
        · rw [syncPendingActivities_online_run remote g st l hg hq hl] at hp
          rcases drainFinalize_queue_sub remote g l
              (updateSyncStatus g.setSyncing SyncStatus.syncing st) p hp with h | h
          · show p ∈ storeQueue st
            unfold storeQueue
            rw [hq]
            exact h
          · rwa [storeQueue_update] at h

/-- A concrete queue entry an unvalidated enqueue can produce: a `create`
operation carrying a target record id. -/
def entryC8 : PendingActivity :=
  { tempId := "temp_x", activity := samplePayload "drive", timestamp := 0,
    operation := OpKind.create, activityId := some "remote_1" }

/-- A concrete well-formed `update` queue entry. -/
def entryU : PendingActivity :=
  { tempId := "temp_u", activity := samplePayload "drive", timestamp := 2,
    operation := OpKind.update, activityId := some "remote_9" }

/-- Counterexample for C8 (queue entry well-formedness): enqueue performs
no validation tying `activityId` to the operation kind — called with
`operation = 'create'` and an `activityId`, it stores the id unchanged, so
the queue then contains a Create entry carrying a target id, violating the
claimed invariant. -/
theorem enqueue_stores_create_with_targetId :
    queueActivityForSync "temp_x" 0 (samplePayload "drive") OpKind.create
        (some "remote_1") noEnqueueFaults
        { pendingActivities := none, syncStatus := none } =
      Except.ok ("temp_x",
        { pendingActivities := some [entryC8], syncStatus := some SyncStatus.pending }) ∧
    entryWellFormed entryC8 = false :=
  ⟨rfl, rfl⟩

/-- C8 as amended: the source stores the caller's `activityId` argument
unconditionally, so the invariant `targetRecordId present iff Update` is
not enforced by enqueue; it is preserved, however, under the documented
calling convention (which the app's two call sites follow): if every entry
already queued is well-formed and the newly enqueued entry is well-formed,
the queue after a successful enqueue contains only well-formed entries;
and a drain never adds entries (its final queue is drawn from the snapshot
and the prior queue), so it preserves well-formedness under any fault
pattern. -/
theorem wellFormed_invariant_preserved
    (tempId : String) (now : Nat) (activity : ActivityPayload) (operation : OpKind)
    (activityId : Option String) (f : EnqueueFaults) (st st' : Store) (tid : String)
    (isConnected : Bool) (remote : RemoteOp → Except String Unit) (g : DrainFaults)
    (hInv : ∀ p ∈ storeQueue st, entryWellFormed p = true) :
    (entryWellFormed { tempId := tempId, activity := activity, timestamp := now,
                       operation := operation, activityId := activityId } = true →
      queueActivityForSync tempId now activity operation activityId f st =
        Except.ok (tid, st') →
      ∀ p ∈ storeQueue st', entryWellFormed p = true) ∧
    (∀ p ∈ storeQueue (syncPendingActivities isConnected remote g st).2.1,
       entryWellFormed p = true) := by
  constructor
  · intro hwf h p hp
    by_cases hgq : f.getQueue
    · simp [queueActivityForSync, hgq] at h
    · by_cases hsq : f.setQueue
      · simp [queueActivityForSync, hgq, hsq] at h
      · simp [queueActivityForSync, hgq, hsq] at h
        rw [← h.2, storeQueue_update] at hp
        have hp2 : p ∈ storeQueue st ++
            [{ tempId := tempId, activity := activity, timestamp := now,
               operation := operation, activityId := activityId }] := hp
        rcases List.mem_append.mp hp2 with hIn | hNew
        · exact hInv p hIn
        · rw [List.mem_singleton.mp hNew]
          exact hwf
  · intro p hp
    exact hInv p (syncPendingActivities_queue_subset isConnected remote g st p hp)

/-- Witness for the amended C8: enqueueing a well-formed update entry into
an empty store leaves only well-formed entries; a drain over
`[pendingF, pendingA]` (one failure retained) likewise leaves only
well-formed entries. -/
theorem wellFormed_invariant_preserved_witness :
    entryWellFormed entryU = true ∧ entryWellFormed pendingF = true :=
  ⟨(wellFormed_invariant_preserved "temp_u" 2 (samplePayload "drive") OpKind.update
      (some "remote_9") noEnqueueFaults
      { pendingActivities := none, syncStatus := none }
      { pendingActivities := some [entryU], syncStatus := some SyncStatus.pending }
      "temp_u" true remoteAlwaysOk noDrainFaults (by decide)).1
      (by decide) rfl entryU (by decide),
   (wellFormed_invariant_preserved "temp_z" 0 (samplePayload "drive") OpKind.create
      none noEnqueueFaults
      { pendingActivities := some [pendingF, pendingA],
        syncStatus := some SyncStatus.pending }
      { pendingActivities := none, syncStatus := none } "temp_z" true
      remoteFailOnFail noDrainFaults (by decide)).2 pendingF (by decide)⟩

/-- A drain fault pattern in which the snapshot read throws. -/
def faultyReadDrain : DrainFaults :=
  { getQueue := some "storage read failed", finalWrite := none,
    setSyncing := false, setFinal := false, setCatch := false }

/-- Counterexample for C9 (persistence-error propagation): storage
failures inside the subsystem are not always propagated as exceptions.
(1) When the drain's storage read of the queue throws, the outer catch of
`syncPendingActivities` swallows it: the call RETURNS the aggregate
`{ success: 0, errors: 1, errorMessages: [...] }` (the model's total
return type mirrors the source's catch-all — no error channel) and writes
status `'error'`; nothing is thrown to the caller.  (2) When the status
write inside a successful enqueue throws, `updateSyncStatus` swallows it:
`queueActivityForSync` still returns the temporary id while the stored
status remains `'synced'`. -/
theorem drain_storageFailure_returned_not_thrown :
    syncPendingActivities true remoteAlwaysOk faultyReadDrain
        { pendingActivities := some [pendingA], syncStatus := some SyncStatus.pending } =
      (⟨0, 1, ["Sync failed: storage read failed"]⟩,
       { pendingActivities := some [pendingA], syncStatus := some SyncStatus.error },
       []) ∧
    queueActivityForSync "temp_c" 7 (samplePayload "walk") OpKind.create none
        { getQueue := false, setQueue := false, setStatus := true }
        { pendingActivities := none, syncStatus := some SyncStatus.synced } =
      Except.ok ("temp_c",
        { pendingActivities := some
            [{ tempId := "temp_c", activity := samplePayload "walk", timestamp := 7,
               operation := OpKind.create, activityId := none }],
          syncStatus := some SyncStatus.synced }) :=
  ⟨rfl, rfl⟩

/-- C9 as amended: a storage failure in enqueue's queue read or queue
write propagates to the caller as the exception
`'Failed to queue activity for offline sync'` — that half of the claim
holds.  The drain, however, captures a storage read failure in its outer
catch and reports it through the returned counts (one error, message
`'Sync failed: ...'`, status set to `'error'`, queue left unchanged)
rather than throwing; and the status write inside enqueue is swallowed
entirely. -/
theorem persistence_error_propagation_amended
    (tempId : String) (now : Nat) (activity : ActivityPayload) (operation : OpKind)
    (activityId : Option String) (f : EnqueueFaults) (st : Store)
    (remote : RemoteOp → Except String Unit) (g : DrainFaults) (msg : String) :
    (f.getQueue = true ∨ f.setQueue = true →
      queueActivityForSync tempId now activity operation activityId f st =
        Except.error "Failed to queue activity for offline sync") ∧
    (g.getQueue = some msg → g.setCatch = false →
      syncPendingActivities true remote g st =
        (⟨0, 1, ["Sync failed: " ++ msg]⟩,
         { pendingActivities := st.pendingActivities,
           syncStatus := some SyncStatus.error },
         [])) := by
  constructor
  · intro h
    by_cases hgq : f.getQueue
    · simp [queueActivityForSync, hgq]
    · rcases h with h | h
      · exact absurd h (by simp [hgq])
      · simp [queueActivityForSync, hgq, h]
  · intro hg hc
    rw [syncPendingActivities_online_getQFault remote g st msg hg, hc]
    cases hs : g.setSyncing <;> simp [updateSyncStatus, hs]

/-- Witness for the amended C9: a concrete enqueue whose queue read throws
yields the propagated exception; a concrete drain whose snapshot read
throws returns the captured error result with the queue intact. -/
theorem persistence_error_propagation_amended_witness :
    queueActivityForSync "temp_d" 9 (samplePayload "walk") OpKind.create none
        { getQueue := true, setQueue := false, setStatus := false }
        { pendingActivities := none, syncStatus := none } =
      Except.error "Failed to queue activity for offline sync" ∧
    syncPendingActivities true remoteAlwaysOk faultyReadDrain
        { pendingActivities := some [pendingF], syncStatus := some SyncStatus.pending } =
      (⟨0, 1, ["Sync failed: storage read failed"]⟩,
       { pendingActivities := some [pendingF], syncStatus := some SyncStatus.error },
       []) :=
  ⟨(persistence_error_propagation_amended "temp_d" 9 (samplePayload "walk")
      OpKind.create none { getQueue := true, setQueue := false, setStatus := false }
      { pendingActivities := none, syncStatus := none } remoteAlwaysOk
      faultyReadDrain "storage read failed").1 (Or.inl rfl),
   (persistence_error_propagation_amended "temp_d" 9 (samplePayload "walk")
      OpKind.create none { getQueue := true, setQueue := false, setStatus := false }
      { pendingActivities := some [pendingF], syncStatus := some SyncStatus.pending }
      remoteAlwaysOk faultyReadDrain "storage read failed").2 rfl rfl⟩

theorem withRetryGo_zero {α : Type} (fn : Nat → Except RetryErr α) (p : RetryErr → Bool)
    (m attempt d : Nat) :
    withRetryGo fn p m attempt 0 d =
      { result := Except.error { code := none, message := none },
        attemptsMade := 0, delays := [] } := rfl

theorem withRetryGo_succ {α : Type} (fn : Nat → Except RetryErr α) (p : RetryErr → Bool)
    (m attempt fuel d : Nat) :
    withRetryGo fn p m attempt (fuel + 1) d =
      match fn attempt with
      | Except.ok v => { result := Except.ok v, attemptsMade := 1, delays := [] }
      | Except.error e =>
        if fuel = 0 ∨ p e = false then
          { result := Except.error e, attemptsMade := 1, delays := [] }
        else
          { result := (withRetryGo fn p m (attempt + 1) fuel (d * m)).result,
            attemptsMade := (withRetryGo fn p m (attempt + 1) fuel (d * m)).attemptsMade + 1,
            delays := d :: (withRetryGo fn p m (attempt + 1) fuel (d * m)).delays } := rfl

theorem withRetryGo_step_error {α : Type} (fn : Nat → Except RetryErr α)
    (p : RetryErr → Bool) (m attempt fuel d : Nat) (e : RetryErr)
    (hfn : fn attempt = Except.error e) (hcond : ¬ (fuel = 0 ∨ p e = false)) :
    withRetryGo fn p m attempt (fuel + 1) d =
      { result := (withRetryGo fn p m (attempt + 1) fuel (d * m)).result,
        attemptsMade := (withRetryGo fn p m (attempt + 1) fuel (d * m)).attemptsMade + 1,
        delays := d :: (withRetryGo fn p m (attempt + 1) fuel (d * m)).delays } := by
  rw [withRetryGo_succ, hfn]
  exact if_neg hcond

theorem withRetryGo_stop_error {α : Type} (fn : Nat → Except RetryErr α)
    (p : RetryErr → Bool) (m attempt fuel d : Nat) (e : RetryErr)
    (hfn : fn attempt = Except.error e) (hcond : fuel = 0 ∨ p e = false) :
    withRetryGo fn p m attempt (fuel + 1) d =
      { result := Except.error e, attemptsMade := 1, delays := [] } := by
  rw [withRetryGo_succ, hfn]
  exact if_pos hcond

theorem withRetryGo_attempts_le {α : Type} (fn : Nat → Except RetryErr α)
    (p : RetryErr → Bool) (m : Nat) :
    ∀ (fuel attempt d : Nat), (withRetryGo fn p m attempt fuel d).attemptsMade ≤ fuel := by
  intro fuel
  induction fuel with
  | zero =>
    intro attempt d
    rw [withRetryGo_zero]
  | succ n ih =>
    intro attempt d
    cases hfn : fn attempt with
    | ok v =>
      rw [withRetryGo_succ, hfn]
      show (1:Nat) ≤ n + 1
      omega
    | error e =>
      by_cases hcond : n = 0 ∨ p e = false
      · rw [withRetryGo_stop_error fn p m attempt n d e hfn hcond]
        show (1:Nat) ≤ n + 1
        omega
      · rw [withRetryGo_step_error fn p m attempt n d e hfn hcond]
        have := ih (attempt + 1) (d * m)
        show (withRetryGo fn p m (attempt + 1) n (d * m)).attemptsMade + 1 ≤ n + 1
        omega

theorem withRetryGo_attempts_pos {α : Type} (fn : Nat → Except RetryErr α)
    (p : RetryErr → Bool) (m : Nat) :
    ∀ (fuel attempt d : Nat), 1 ≤ fuel →
      1 ≤ (withRetryGo fn p m attempt fuel d).attemptsMade := by
  intro fuel
  induction fuel with
  | zero => intro attempt d h; exact absurd h (by omega)
  | succ n _ =>
    intro attempt d _
    cases hfn : fn attempt with
    | ok v =>
      rw [withRetryGo_succ, hfn]
    | error e =>
      by_cases hcond : n = 0 ∨ p e = false
      · rw [withRetryGo_stop_error fn p m attempt n d e hfn hcond]
      · rw [withRetryGo_step_error fn p m attempt n d e hfn hcond]
        show (1:Nat) ≤ (withRetryGo fn p m (attempt + 1) n (d * m)).attemptsMade + 1
        omega

theorem withRetryGo_delays_shape {α : Type} (fn : Nat → Except RetryErr α)
    (p : RetryErr → Bool) (m : Nat) :
    ∀ (fuel attempt d : Nat),
      (withRetryGo fn p m attempt fuel d).delays =
        (List.range ((withRetryGo fn p m attempt fuel d).attemptsMade - 1)).map
          (fun i => d * m ^ i) := by
  intro fuel
  induction fuel with
  | zero =>
    intro attempt d
    rw [withRetryGo_zero]
    rfl
  | succ n ih =>
    intro attempt d
    cases hfn : fn attempt with
    | ok v =>
      rw [withRetryGo_succ, hfn]
      rfl
    | error e =>
      by_cases hcond : n = 0 ∨ p e = false
      · rw [withRetryGo_stop_error fn p m attempt n d e hfn hcond]
        rfl
      · rw [withRetryGo_step_error fn p m attempt n d e hfn hcond]
        have hn : 1 ≤ n := by
          rcases Nat.eq_zero_or_pos n with h0 | h0
          · exact absurd (Or.inl h0) hcond
          · exact h0
        have hpos := withRetryGo_attempts_pos fn p m n (attempt + 1) (d * m) hn
        show d :: (withRetryGo fn p m (attempt + 1) n (d * m)).delays =
          (List.range ((withRetryGo fn p m (attempt + 1) n (d * m)).attemptsMade + 1 - 1)).map
            (fun i => d * m ^ i)
        rw [Nat.add_sub_cancel]
        obtain ⟨k, hk⟩ : ∃ k, (withRetryGo fn p m (attempt + 1) n (d * m)).attemptsMade =
            k + 1 := ⟨(withRetryGo fn p m (attempt + 1) n (d * m)).attemptsMade - 1, by omega⟩
        rw [ih (attempt + 1) (d * m), hk, Nat.add_sub_cancel, List.range_succ_eq_map,
          List.map_cons, List.map_map]
        have hfun : (fun i : Nat => d * m * m ^ i) =
            ((fun i : Nat => d * m ^ i) ∘ Nat.succ) := by
          funext i
          show d * m * m ^ i = d * m ^ (i + 1)
          rw [pow_succ]
          ring
        rw [hfun]
        congr 1
        simp

/-- A Firestore `unavailable` error — retryable under
`defaultShouldRetry`. -/
def errUnavailable : RetryErr := { code := some "unavailable", message := none }

/-- A Firestore permission error — non-retryable under
`defaultShouldRetry`. -/
def errPermissionDenied : RetryErr :=
  { code := some "permission-denied",
    message := some "Missing or insufficient permissions" }

/-- A wrapped write whose every invocation fails with `unavailable`. -/
def fnUnavailable : Nat → Except RetryErr Unit :=
  fun _ => Except.error errUnavailable

/-- A wrapped write whose every invocation fails with
`permission-denied`. -/
def fnPermDenied : Nat → Except RetryErr Unit :=
  fun _ => Except.error errPermissionDenied

/-- C7 (per-write retry budget): the retried remote write of a drain
(`createActivity`/`updateActivity`, via `withRetry(..., { maxAttempts: 3 })`)
invokes the wrapped write at most 3 times, with exponential-backoff delays
of base 1000 ms and multiplier 2 between attempts (the delays awaited are
exactly the first `attemptsMade - 1` entries of `[1000, 2000]`); an error
the classifier `defaultShouldRetry` marks non-retryable is not retried —
the write fails on the first attempt with that error; when all three
attempts fail (the first two retryably) the error of the last attempt is
thrown; and the classifier marks authentication failures
(non-network `auth/*` codes), permission failures (`permission-denied`)
and bad-target failures (`not-found`, the source's representative of the
spec's malformed-payload class) as non-retryable. -/
theorem createActivityWrite_retryPolicy {α : Type} (fn : Nat → Except RetryErr α)
    (e1 e2 e3 : RetryErr) :
    (createActivityWrite fn).attemptsMade ≤ 3 ∧
    (createActivityWrite fn).delays =
      [1000, 2000].take ((createActivityWrite fn).attemptsMade - 1) ∧
    (fn 1 = Except.error e1 → defaultShouldRetry e1 = false →
       (createActivityWrite fn).attemptsMade = 1 ∧
       (createActivityWrite fn).result = Except.error e1) ∧
    (fn 1 = Except.error e1 → fn 2 = Except.error e2 → fn 3 = Except.error e3 →
       defaultShouldRetry e1 = true → defaultShouldRetry e2 = true →
       (createActivityWrite fn).result = Except.error e3 ∧
       (createActivityWrite fn).attemptsMade = 3 ∧
       (createActivityWrite fn).delays = [1000, 2000]) ∧
    defaultShouldRetry { code := some "auth/invalid-credential",
                         message := some "Invalid credential" } = false ∧
    defaultShouldRetry errPermissionDenied = false ∧
    defaultShouldRetry { code := some "not-found",
                         message := some "No document to update" } = false := by
  have e : createActivityWrite fn = withRetryGo fn defaultShouldRetry 2 1 3 1000 := rfl
  have hle : (createActivityWrite fn).attemptsMade ≤ 3 := by
    rw [e]
    exact withRetryGo_attempts_le fn defaultShouldRetry 2 3 1 1000
  have hdel : (createActivityWrite fn).delays =
      (List.range ((createActivityWrite fn).attemptsMade - 1)).map
        (fun i => 1000 * 2 ^ i) := by
    rw [e]
    exact withRetryGo_delays_shape fn defaultShouldRetry 2 3 1 1000
  refine ⟨hle, ?_, ?_, ?_, by decide, by decide, by decide⟩
  · have hk : (createActivityWrite fn).attemptsMade - 1 = 0 ∨
        (createActivityWrite fn).attemptsMade - 1 = 1 ∨
        (createActivityWrite fn).attemptsMade - 1 = 2 := by omega
    rcases hk with hk | hk | hk <;> rw [hdel, hk] <;> decide
  · intro h1 hns
    have s1 := withRetryGo_stop_error fn defaultShouldRetry 2 1 2 1000 e1 h1 (Or.inr hns)
    norm_num at s1
    rw [e, s1]
    exact ⟨rfl, rfl⟩
  · intro h1 h2 h3 hp1 hp2
    have s1 := withRetryGo_step_error fn defaultShouldRetry 2 1 2 1000 e1 h1
      (by simp [hp1])
    have s2 := withRetryGo_step_error fn defaultShouldRetry 2 2 1 2000 e2 h2
      (by simp [hp2])
    have s3 := withRetryGo_stop_error fn defaultShouldRetry 2 3 0 4000 e3 h3 (Or.inl rfl)
    norm_num at s1 s2 s3
    rw [e, s1, s2, s3]
    exact ⟨rfl, rfl, rfl⟩

/-- Witness for C7: a write failing every time with non-retryable
`permission-denied` makes exactly one attempt; one failing every time with
retryable `unavailable` makes three attempts, waits 1000 ms then 2000 ms,
and throws the last error. -/
theorem createActivityWrite_retryPolicy_witness :
    ((createActivityWrite fnPermDenied).attemptsMade = 1 ∧
     (createActivityWrite fnPermDenied).result = Except.error errPermissionDenied) ∧
    ((createActivityWrite fnUnavailable).result = Except.error errUnavailable ∧
     (createActivityWrite fnUnavailable).attemptsMade = 3 ∧
     (createActivityWrite fnUnavailable).delays = [1000, 2000]) :=
  ⟨(createActivityWrite_retryPolicy fnPermDenied errPermissionDenied
      errPermissionDenied errPermissionDenied).2.2.1 rfl (by decide),
   (createActivityWrite_retryPolicy fnUnavailable errUnavailable errUnavailable
      errUnavailable).2.2.2.1 rfl rfl rfl (by decide) (by decide)⟩

end CarbonSync

